import Mathlib

/-!
Verification of the placement-companion web application's specification
against a shallow embedding of its TypeScript source.

Calendar days are embedded as integers (the ISO `YYYY-MM-DD` strings the
code manipulates sort lexicographically in day order, so the code's
sort/compare pipeline is faithfully represented by integer days).
Machine floats in the score computation are embedded as exact rationals.
`JSON.parse` is a platform primitive, not repository code; it is passed
to the embedded edge-function handlers as an explicit oracle argument.
-/

namespace Placement

/-- JS `String.prototype.trim()`: strip whitespace from both ends
(embedded over the character list so that it evaluates inside proofs). -/
def jsTrim (s : String) : String :=
  String.mk (((s.toList.dropWhile Char.isWhitespace).reverse.dropWhile
    Char.isWhitespace).reverse)

/-! ### Streak calculation
Embedding of `calculateStreak` in `src/pages/CodingPractice.tsx` and the
identical inline loop in `fetchStats` of `src/pages/Dashboard.tsx`.
The JS pipeline `[...new Set(list)].sort().reverse()` produces the set of
practice days sorted strictly descending; `insertDesc`/`sortDesc`/`dedup`
compute the same list. -/

/-- Insert a day into a descending-sorted list, keeping it descending. -/
def insertDesc (x : Int) : List Int → List Int
  | [] => [x]
  | y :: ys => if x ≥ y then x :: y :: ys else y :: insertDesc x ys

/-- Sort a list of days in descending order. -/
def sortDesc (l : List Int) : List Int := l.foldr insertDesc []

/-- `[...new Set(dates)].sort().reverse()`: distinct days, descending. -/
def uniqueDatesDesc (dates : List Int) : List Int := sortDesc dates.dedup

/-- The `for` loop of `calculateStreak`: at index `i` the expected day is
`today - i`; the entry counts if it equals the expected day, or if `i = 0`
and it equals today (the literal second disjunct of the source condition);
otherwise the loop breaks. -/
def streakLoop (today : Int) : Nat → List Int → Nat
  | _, [] => 0
  | i, d :: rest =>
    if d = today - (i : Int) ∨ (i = 0 ∧ d = today) then
      streakLoop today (i + 1) rest + 1
    else 0

/-- `calculateStreak` (CodingPractice.tsx) and the inline streak loop of
`fetchStats` (Dashboard.tsx): 0 for an empty list, otherwise the loop over
the distinct practice days in descending order. -/
def calculateStreak (today : Int) (dates : List Int) : Nat :=
  if dates.isEmpty then 0 else streakLoop today 0 (uniqueDatesDesc dates)

/-- Claim C1: the spec says the streak counts consecutive practice days
ending today **or yesterday**, so a single practice entry yesterday should
give streak 1. The code computes 0 there: with today = 2 and the sole
practice day 1 (yesterday), `calculateStreak` returns 0, because the loop
only ever matches the run `today, today - 1, ...` anchored at today (the
`i === 0 && dates[i] === today` disjunct is subsumed by `expected` at
`i = 0`). A run that does end today is counted correctly, as the second
conjunct shows. -/
theorem calculateStreak_yesterday_run_is_zero :
    calculateStreak 2 [1] = 0 ∧ calculateStreak 2 [2, 1] = 2 := by
  constructor <;> rfl

/-! ### Mock tests: scoring, timer, answer selection
Embedding of the `MockTests` component of `src/pages/MockInterviews.tsx`. -/

/-- A generated multiple-choice question (fields used by the client;
the four option texts are irrelevant to every claim and elided). -/
structure Question where
  question : String
  correctAnswer : String
  explanation : String
  deriving DecidableEq

/-- The `questions.forEach((q, index) => ...)` count in `handleSubmitTest`:
the number of indices `i` of the question list whose selected answer (JS
`selectedAnswers[index]`, `undefined` when out of range, which never
equals a string) equals `q.correctAnswer`. -/
def correctCount (questions : List Question) (answers : List String) : Nat :=
  ((List.range questions.length).filter (fun i =>
    answers[i]? == (questions[i]?).map Question.correctAnswer)).length

/-- The record written back by `handleSubmitTest`'s update call
(`completed_at` elided; `score` is the JS float `(correctCount /
questions.length) * 100`, embedded exactly as a rational). -/
structure TestUpdate where
  correct_answers : Nat
  time_taken : Int
  answers : List String
  status : String
  score : ℚ
  deriving DecidableEq

/-- The computation performed by `handleSubmitTest` before the update
call, producing the written record. -/
def submitTestUpdate (questions : List Question) (selectedAnswers : List String)
    (max_time timeRemaining : Int) : TestUpdate :=
  let k := correctCount questions selectedAnswers
  { correct_answers := k
    time_taken := max_time - timeRemaining
    answers := selectedAnswers
    status := "completed"
    score := (k : ℚ) / (questions.length : ℚ) * 100 }

/-- Specification-side count: the number of indices `i` with
`selectedAnswers[i] = questions[i].correctAnswer`, stated propositionally
over `List.range`. -/
def specCorrectIndices (questions : List Question) (answers : List String) : Nat :=
  (List.range questions.length).countP (fun i =>
    decide (answers[i]? = (questions[i]?).map Question.correctAnswer))

theorem correctCount_eq_spec (questions : List Question) (answers : List String) :
    correctCount questions answers = specCorrectIndices questions answers := by
  unfold correctCount specCorrectIndices
  rw [List.countP_eq_length_filter]
  congr 1
  apply List.filter_congr
  intro i _
  rw [Bool.eq_iff_iff]
  simp

/-- Claim C2: for a test of `N > 0` questions, `handleSubmitTest` counts
`K = specCorrectIndices` matching indices and writes back
`correct_answers = K`, `score = (K / N) * 100`, the submitted answer
array, and status `"completed"`. -/
theorem submitTestUpdate_scoring (questions : List Question)
    (selectedAnswers : List String) (max_time timeRemaining : Int)
    (hN : 0 < questions.length) :
    (submitTestUpdate questions selectedAnswers max_time timeRemaining).correct_answers
      = specCorrectIndices questions selectedAnswers ∧
    (submitTestUpdate questions selectedAnswers max_time timeRemaining).score
      = (specCorrectIndices questions selectedAnswers : ℚ) / (questions.length : ℚ) * 100 ∧
    (submitTestUpdate questions selectedAnswers max_time timeRemaining).answers
      = selectedAnswers ∧
    (submitTestUpdate questions selectedAnswers max_time timeRemaining).status
      = "completed" := by
  have _ := hN
  refine ⟨correctCount_eq_spec .., ?_, rfl, rfl⟩
  simp [submitTestUpdate, correctCount_eq_spec]

/-- Witness for C2: a two-question test with one correct selection scores
50 and records one correct answer. -/
theorem submitTestUpdate_scoring_witness :
    (submitTestUpdate
        [⟨"q1", "A", "e1"⟩, ⟨"q2", "B", "e2"⟩] ["A", "C"] 120 30).correct_answers = 1 ∧
    (submitTestUpdate
        [⟨"q1", "A", "e1"⟩, ⟨"q2", "B", "e2"⟩] ["A", "C"] 120 30).score = 50 := by
  have h := submitTestUpdate_scoring
    [⟨"q1", "A", "e1"⟩, ⟨"q2", "B", "e2"⟩] ["A", "C"] 120 30 (by decide)
  have hK : specCorrectIndices
      [⟨"q1", "A", "e1"⟩, ⟨"q2", "B", "e2"⟩] ["A", "C"] = 1 := rfl
  refine ⟨h.1.trans hK, h.2.1.trans ?_⟩
  rw [hK]
  norm_num

/-- State of the countdown timer of the mock-test view: remaining seconds
and whether `handleSubmitTest` has been invoked. `submitted = true`
stands for the component having left the `"test"` view (the effect's
`view !== "test"` guard), so no further tick fires. -/
structure TimerState where
  time : Int
  submitted : Bool
  deriving DecidableEq

/-- One interval tick of the timer effect: no-op when the effect is not
installed (`timeRemaining <= 0` or view left `"test"`); otherwise
`prev <= 1` clears the interval, invokes `handleSubmitTest` and stores 0,
and any larger value is decremented by one. -/
def timerTick (s : TimerState) : TimerState :=
  if s.time ≤ 0 ∨ s.submitted then s
  else if s.time ≤ 1 then { time := 0, submitted := true }
  else { time := s.time - 1, submitted := false }

/-- `k` consecutive timer ticks. -/
def runTimer (k : Nat) (s : TimerState) : TimerState := timerTick^[k] s

theorem runTimer_succ (k : Nat) (s : TimerState) :
    runTimer (k + 1) s = timerTick (runTimer k s) := by
  simp [runTimer, Function.iterate_succ_apply']

theorem timerTick_big {t : Int} (h : 1 < t) :
    timerTick ⟨t, false⟩ = ⟨t - 1, false⟩ := by
  unfold timerTick
  rw [if_neg (by simp; omega), if_neg (by dsimp; omega)]

theorem timerTick_last {t : Int} (h0 : 0 < t) (h1 : t ≤ 1) :
    timerTick ⟨t, false⟩ = ⟨0, true⟩ := by
  unfold timerTick
  rw [if_neg (by simp; omega), if_pos h1]

theorem timerTick_done : timerTick ⟨0, true⟩ = ⟨0, true⟩ := by
  unfold timerTick
  rw [if_pos (by simp)]

/-- Claim C3: starting from `t0 > 0` remaining seconds, every tick
decreases the remaining time by exactly one second, the remaining time
is never negative, after `k < t0` ticks it is `t0 - k` with no submission
yet, and the submission happens exactly at tick number `t0` (the tick at
which the remaining time reaches zero), after which the state stays at
zero, submitted. -/
theorem timer_countdown (t0 : Int) (k : Nat) (h : 0 < t0) :
    0 ≤ (runTimer k ⟨t0, false⟩).time ∧
    ((k : Int) < t0 → runTimer k ⟨t0, false⟩ = ⟨t0 - k, false⟩) ∧
    (t0 ≤ (k : Int) → runTimer k ⟨t0, false⟩ = ⟨0, true⟩) := by
  induction k with
  | zero =>
    refine ⟨by simp [runTimer]; omega, fun _ => by simp [runTimer],
      fun hk => absurd hk (by push_cast; omega)⟩
  | succ k ih =>
    obtain ⟨ihnn, ihlt, ihge⟩ := ih
    by_cases hk : (k : Int) < t0
    · by_cases hk1 : ((k : Int) + 1) < t0
      · have e : runTimer (k + 1) ⟨t0, false⟩ = ⟨t0 - ((k : Int) + 1), false⟩ := by
          rw [runTimer_succ, ihlt hk, timerTick_big (by omega)]
          congr 1
          omega
        refine ⟨by rw [e]; dsimp; omega, fun _ => by rw [e]; congr 1,
          fun hc => absurd hc (by push_cast; omega)⟩
      · have e : runTimer (k + 1) ⟨t0, false⟩ = ⟨0, true⟩ := by
          rw [runTimer_succ, ihlt hk, timerTick_last (by omega) (by omega)]
        exact ⟨by rw [e], fun hc => absurd hc (by push_cast; omega), fun _ => e⟩
    · have e : runTimer (k + 1) ⟨t0, false⟩ = ⟨0, true⟩ := by
        rw [runTimer_succ, ihge (by omega), timerTick_done]
      exact ⟨by rw [e], fun hc => absurd hc (by push_cast; omega), fun _ => e⟩

/-- Witness for C3: from 3 seconds remaining, two ticks leave 1 second
unsubmitted and the third tick submits at zero. -/
theorem timer_countdown_witness :
    runTimer 2 ⟨3, false⟩ = ⟨1, false⟩ ∧ runTimer 3 ⟨3, false⟩ = ⟨0, true⟩ :=
  ⟨(timer_countdown 3 2 (by decide)).2.1 (by decide),
   (timer_countdown 3 3 (by decide)).2.2 (by decide)⟩

/-- `handleAnswerSelect`: copy `selectedAnswers` and overwrite the entry
at `currentQuestionIndex` with the chosen option. For an in-range index
the JS element assignment is exactly `List.set`. -/
def handleAnswerSelect (selectedAnswers : List String)
    (currentQuestionIndex : Nat) (answer : String) : List String :=
  selectedAnswers.set currentQuestionIndex answer

/-- `startTest`'s `new Array(questions.length).fill("")`: the initial
answer array, one empty string per question. -/
def startTestAnswers (numQuestions : Nat) : List String :=
  List.replicate numQuestions ""

/-- Claim C10: while question `i` is current (so `i` is in range),
selecting an answer replaces exactly index `i`, leaves every other index
unchanged, keeps the array length equal to the number of questions, and
`startTest` initialises the array to that length. -/
theorem answer_select_frame (selectedAnswers : List String) (i : Nat)
    (answer : String) (numQuestions : Nat)
    (hlen : selectedAnswers.length = numQuestions) (hi : i < numQuestions) :
    (handleAnswerSelect selectedAnswers i answer).length = numQuestions ∧
    (handleAnswerSelect selectedAnswers i answer)[i]? = some answer ∧
    (∀ j : Nat, j ≠ i →
      (handleAnswerSelect selectedAnswers i answer)[j]? = selectedAnswers[j]?) ∧
    (startTestAnswers numQuestions).length = numQuestions := by
  refine ⟨by simp [handleAnswerSelect, hlen], ?_, fun j hj => ?_, by simp [startTestAnswers]⟩
  · rw [handleAnswerSelect, List.getElem?_set_self]
    omega
  · rw [handleAnswerSelect, List.getElem?_set_ne (fun hc => hj hc.symm)]

/-- Witness for C10: selecting `"B"` at index 1 of a three-slot array. -/
theorem answer_select_frame_witness :
    (handleAnswerSelect ["A", "", "C"] 1 "B").length = 3 ∧
    (handleAnswerSelect ["A", "", "C"] 1 "B")[1]? = some "B" ∧
    (handleAnswerSelect ["A", "", "C"] 1 "B")[0]? = ["A", "", "C"][0]? ∧
    (startTestAnswers 3).length = 3 := by
  have h := answer_select_frame ["A", "", "C"] 1 "B" 3 (by decide) (by decide)
  exact ⟨h.1, h.2.1, h.2.2.1 0 (by decide), h.2.2.2⟩

/-! ### Failure handling (claim C4)
State-transition embeddings of `handleSubmitTest` (MockInterviews.tsx)
and of the application tracker's `handleSubmit` at Dashboard.tsx lines
769-812. Network outcomes are passed in as a boolean (`netOk`); the
handlers return the next client state together with the toasts raised. -/

/-- A user-facing toast notification. -/
structure Toast where
  kind : String
  message : String
  deriving DecidableEq

/-- The fields of a `mock_tests` row held in `currentTest`. -/
structure MockTest where
  id : String
  questions : List Question
  max_time : Int
  correct_answers : Nat
  time_taken : Int
  answers : List String
  status : String
  score : ℚ
  deriving DecidableEq

/-- Client state of the mock-test session. -/
structure TestSession where
  view : String
  currentTest : Option MockTest
  selectedAnswers : List String
  timeRemaining : Int
  loading : Bool
  deriving DecidableEq

/-- `handleSubmitTest` as a state transition: guard on `currentTest`,
compute the update, issue the network write; on success store the
updated test, switch to the result view and toast success; on failure
(`throw` caught by the `catch`) toast one error. `finally` resets
`loading` on both paths. -/
def handleSubmitTestRun (s : TestSession) (netOk : Bool) : TestSession × List Toast :=
  match s.currentTest with
  | none => (s, [])
  | some t =>
    let u := submitTestUpdate t.questions s.selectedAnswers t.max_time s.timeRemaining
    if netOk then
      ({ s with
          currentTest := some { t with
            correct_answers := u.correct_answers
            time_taken := u.time_taken
            answers := u.answers
            status := u.status
            score := u.score }
          view := "result"
          loading := false },
       [⟨"success", "Test completed!"⟩])
    else
      ({ s with loading := false }, [⟨"error", "Failed to submit test"⟩])

/-- A row of the `applications` table. -/
structure AppRecord where
  id : String
  company_name : String
  role : String
  job_type : String
  status : String
  apply_date : String
  interview_date : Option String
  application_link : Option String
  notes : Option String
  deriving DecidableEq

/-- Client state of the application-tracker page around its dialog. -/
structure AppsPageState where
  applications : List AppRecord
  isDialogOpen : Bool
  editingApp : Option AppRecord
  deriving DecidableEq

/-- The tracker `handleSubmit` at Dashboard.tsx lines 769-812: insert or
update depending on `editingApp`, toast per outcome, refetch on success,
then unconditionally `setIsDialogOpen(false)` and `setEditingApp(null)` —
also when the write failed. `refetched` is the list the success-path
`fetchApplications` would deliver. -/
def appsHandleSubmitV1 (st : AppsPageState) (netOk : Bool)
    (refetched : List AppRecord) : AppsPageState × List Toast :=
  if netOk then
    ({ applications := refetched, isDialogOpen := false, editingApp := none },
     [⟨"success", if st.editingApp.isSome then "Application updated" else "Application added"⟩])
  else
    ({ st with isDialogOpen := false, editingApp := none },
     [⟨"error", if st.editingApp.isSome then "Failed to update application"
                else "Failed to add application"⟩])

/-- Claim C4 counterexample: a failed application submission does **not**
leave the form/dialog state unchanged. With the dialog open for a new
application over an empty list, a failed insert yields a state that
differs from the pre-call state (the dialog has been closed), refuting
the claim at this concrete input. -/
theorem failed_submit_changes_dialog_state :
    (appsHandleSubmitV1 ⟨[], true, none⟩ false []).1 ≠ ⟨[], true, none⟩ ∧
    (appsHandleSubmitV1 ⟨[], true, none⟩ false []).1.isDialogOpen = false := by
  constructor <;> decide

/-- Claim C4 as amended: a failed mock-test submission surfaces exactly
one error toast and leaves the whole session state unchanged; a failed
application create/edit submission surfaces exactly one error toast and
leaves the applications list unchanged, but unconditionally closes the
dialog and clears the editing selection. -/
theorem failed_network_call_effects (s : TestSession) (t : MockTest)
    (st : AppsPageState) (refetched : List AppRecord)
    (hct : s.currentTest = some t) (hld : s.loading = false) :
    (handleSubmitTestRun s false).1 = s ∧
    (handleSubmitTestRun s false).2 = [⟨"error", "Failed to submit test"⟩] ∧
    (appsHandleSubmitV1 st false refetched).1.applications = st.applications ∧
    (appsHandleSubmitV1 st false refetched).2
      = [⟨"error", if st.editingApp.isSome then "Failed to update application"
                   else "Failed to add application"⟩] ∧
    (appsHandleSubmitV1 st false refetched).1.isDialogOpen = false ∧
    (appsHandleSubmitV1 st false refetched).1.editingApp = none := by
  refine ⟨?_, ?_, rfl, rfl, rfl, rfl⟩ <;>
    · simp only [handleSubmitTestRun, hct]
      cases s
      simp_all

/-- Witness for the amended C4 at a concrete session and page state. -/
theorem failed_network_call_effects_witness :
    (handleSubmitTestRun ⟨"test", some ⟨"t1", [⟨"q", "A", "e"⟩], 60, 0, 0, [], "in_progress", 0⟩,
        ["A"], 12, false⟩ false).1
      = ⟨"test", some ⟨"t1", [⟨"q", "A", "e"⟩], 60, 0, 0, [], "in_progress", 0⟩,
        ["A"], 12, false⟩ ∧
    (appsHandleSubmitV1 ⟨[], true, none⟩ false []).1.applications = [] := by
  have h := failed_network_call_effects
    ⟨"test", some ⟨"t1", [⟨"q", "A", "e"⟩], 60, 0, 0, [], "in_progress", 0⟩, ["A"], 12, false⟩
    ⟨"t1", [⟨"q", "A", "e"⟩], 60, 0, 0, [], "in_progress", 0⟩
    ⟨[], true, none⟩ [] rfl rfl
  exact ⟨h.1, h.2.2.1⟩

/-! ### Edge functions (claim C5)
Embedding of the AI-content handling of
`supabase/functions/analyze-resume/index.ts` and
`supabase/functions/generate-test/index.ts`. `JSON.parse` is the
platform's parser and is passed in as an oracle `parse`; a `none` result
stands for the `SyntaxError` the JS parser throws. -/

/-- Suffix of the character list after the first occurrence of `pat`
(`none` when `pat` does not occur). -/
def dropThroughList (pat : List Char) : List Char → Option (List Char)
  | [] => if pat.isEmpty then some [] else none
  | c :: rest =>
    if pat.isPrefixOf (c :: rest) then some ((c :: rest).drop pat.length)
    else dropThroughList pat rest

/-- Characters before the first occurrence of `pat` (`none` when `pat`
does not occur). -/
def takeUntilList (pat : List Char) : List Char → Option (List Char)
  | [] => if pat.isEmpty then some [] else none
  | c :: rest =>
    if pat.isPrefixOf (c :: rest) then some []
    else (takeUntilList pat rest).map (fun l => c :: l)

/-- The analyze-resume regex match against three-backtick fences with an
optional `json` tag: the capture group of the first fenced block, or
`none` when the content has no complete fenced block. -/
def extractFenced (content : String) : Option String :=
  match dropThroughList ("```".toList) content.toList with
  | none => none
  | some rest =>
    let rest := if ("json".toList).isPrefixOf rest then rest.drop 4 else rest
    let rest := rest.dropWhile Char.isWhitespace
    (takeUntilList ("```".toList) rest).map (fun cs => String.mk cs)

/-- `jsonMatch[1]?.trim() || content.trim()` with the fallback array
`[null, content]`: the trimmed capture when present and nonempty,
otherwise the trimmed content. -/
def resumeJsonStr (content : String) : String :=
  let base := (extractFenced content).getD content
  if jsTrim base = "" then jsTrim content else jsTrim base

/-- Body of the analyze-resume response: the parsed analysis, or the
hard-coded placeholder object built in the `catch (parseError)` branch
(its constant fields beyond score, summary and `rawResponse` — empty
lists, empty strings and false flags — are elided). -/
inductive AnalysisBody (J : Type) where
  | parsed (j : J)
  | placeholder (score : Nat) (summary : String) (rawResponse : String)
  deriving DecidableEq

/-- The analyze-resume handler from the point where the AI content string
is in hand: extract the candidate JSON text, try to parse it, and on
parse failure respond 200 with the placeholder analysis carrying the raw
content. -/
def analyzeResumeRespond {J : Type} (parse : String → Option J)
    (content : String) : Nat × AnalysisBody J :=
  match parse (resumeJsonStr content) with
  | some j => (200, .parsed j)
  | none =>
    (200, .placeholder 0 "Unable to parse analysis. Please try again." content)

/-- The generate-test regex `content.match` of a brace-delimited block:
the substring from the first opening brace to the last closing brace
after it, or `none` when no such block exists. -/
def extractBraces (content : String) : Option String :=
  let l := content.toList.dropWhile (fun c => c ≠ '{')
  let r := l.reverse.dropWhile (fun c => c ≠ '}')
  if l.isEmpty ∨ r.isEmpty then none else some (String.mk r.reverse)

/-- The generate-test handler from the point where the AI content string
is in hand: a missing brace block throws, a parse failure throws (the
JS `SyntaxError` message is abstracted to a fixed string), and the outer
`catch` turns either throw into a 500 response carrying an error object;
a successful parse is returned with status 200. -/
def generateTestRespond {J : Type} (parse : String → Option J)
    (content : String) : Nat × Except String J :=
  match extractBraces content with
  | none => (500, .error "Failed to parse questions from AI response")
  | some s =>
    match parse s with
    | some j => (200, .ok j)
    | none => (500, .error "JSON parse error")

/-- Claim C5: when the AI content is not parsable as JSON (the parse
oracle rejects every candidate string), the resume-analysis function
responds 200 with the placeholder error object carrying the raw content,
and the test-generation function catches the failure and responds 500
with an error object; neither crashes (both are total functions of the
content). -/
theorem ai_parse_fallback (J : Type) (parse : String → Option J)
    (content : String) (h : ∀ s, parse s = none) :
    analyzeResumeRespond parse content
      = (200, .placeholder 0 "Unable to parse analysis. Please try again." content) ∧
    (generateTestRespond parse content).1 = 500 ∧
    (∃ m, (generateTestRespond parse content).2 = .error m) := by
  refine ⟨by simp [analyzeResumeRespond, h], ?_, ?_⟩ <;>
    · unfold generateTestRespond
      cases hb : extractBraces content <;> simp [h]

/-- Witness for C5 with an oracle that rejects everything and content
containing no brace block. -/
theorem ai_parse_fallback_witness :
    analyzeResumeRespond (fun _ => (none : Option Nat)) "not json"
      = (200, .placeholder 0 "Unable to parse analysis. Please try again." "not json") ∧
    (generateTestRespond (fun _ => (none : Option Nat)) "not json").1 = 500 :=
  ⟨(ai_parse_fallback Nat (fun _ => none) "not json" (fun _ => rfl)).1,
   (ai_parse_fallback Nat (fun _ => none) "not json" (fun _ => rfl)).2.1⟩

/-! ### Required-field validation (claim C6)
The heads of the submit handlers of the application tracker
(Dashboard.tsx lines 1197-1242), the coding-practice log
(CodingPractice.tsx) and the learning page (Learning.tsx): each trims
its required text field and returns with an error toast before any
insert/update request when validation fails. -/

/-- Outcome of a submit handler's validation phase: either a rejection
toast raised before any network call, or the payload of the network
request that will be issued. -/
inductive SubmitOutcome (ρ : Type) where
  | rejected (toast : Toast)
  | request (payload : ρ)
  deriving DecidableEq

/-- The `appData` object sent by the tracker's submit handler. -/
structure AppPayload where
  company_name : String
  role : String
  job_type : String
  status : String
  apply_date : String
  application_link : Option String
  interview_date : Option String
  notes : Option String
  deriving DecidableEq

/-- Tracker `handleSubmit` validation: trim company name and role and
reject with one error toast when either is empty. -/
def applicationsSubmit (company_name role job_type status apply_date : String)
    (application_link interview_date notes : Option String) :
    SubmitOutcome AppPayload :=
  let companyName := jsTrim company_name
  let role' := jsTrim role
  if companyName = "" ∨ role' = "" then
    .rejected ⟨"error", "Company name and role are required"⟩
  else
    .request ⟨companyName, role', job_type, status, apply_date,
      application_link, interview_date, notes⟩

/-- The `problemData` object sent by the coding-practice submit handler. -/
structure ProblemPayload where
  platform : String
  problem_name : String
  difficulty : String
  status : String
  date_practiced : String
  notes : Option String
  deriving DecidableEq

/-- CodingPractice `handleSubmit` validation: trim the problem name and
reject empty name, then unselected platform, then missing date, each
with its own error toast, before the insert/update call. -/
def codingSubmit (problem_name platform difficulty status date_practiced : String)
    (notes : Option String) : SubmitOutcome ProblemPayload :=
  let problemName := jsTrim problem_name
  if problemName = "" then .rejected ⟨"error", "Problem name is required"⟩
  else if platform = "" then .rejected ⟨"error", "Please select a platform"⟩
  else if date_practiced = "" then .rejected ⟨"error", "Date is required"⟩
  else .request ⟨platform, problemName, difficulty, status, date_practiced, notes⟩

/-- The goal object sent by the learning submit handler (fields beyond
the validated ones elided as `rest`). -/
structure GoalPayload where
  skill_name : String
  topic_name : String
  deriving DecidableEq

/-- Learning `handleSubmit` validation: trim the topic name and reject
empty topic, then unselected skill, each with its own error toast,
before the insert/update call. -/
def learningSubmit (topic_name skill_name : String) : SubmitOutcome GoalPayload :=
  let topicName := jsTrim topic_name
  if topicName = "" then .rejected ⟨"error", "Topic name is required"⟩
  else if skill_name = "" then .rejected ⟨"error", "Please select a skill"⟩
  else .request ⟨skill_name, topicName⟩

/-- Claim C6: on each of the three forms, a required field that is empty
or all whitespace (so that its trim is empty) makes the submit handler
return a rejection with an error toast — by construction of
`SubmitOutcome`, before any network request payload is produced. -/
theorem required_field_validation
    (company_name role job_type status apply_date : String)
    (application_link interview_date notes : Option String)
    (problem_name platform difficulty pstatus date_practiced : String)
    (pnotes : Option String) (topic_name skill_name : String)
    (hc : jsTrim company_name = "") (hp : jsTrim problem_name = "")
    (ht : jsTrim topic_name = "") :
    applicationsSubmit company_name role job_type status apply_date
        application_link interview_date notes
      = .rejected ⟨"error", "Company name and role are required"⟩ ∧
    codingSubmit problem_name platform difficulty pstatus date_practiced pnotes
      = .rejected ⟨"error", "Problem name is required"⟩ ∧
    learningSubmit topic_name skill_name
      = .rejected ⟨"error", "Topic name is required"⟩ := by
  refine ⟨?_, ?_, ?_⟩ <;> simp [applicationsSubmit, codingSubmit, learningSubmit, hc, hp, ht]

/-- Witness for C6: all-whitespace required fields are rejected on all
three forms. -/
theorem required_field_validation_witness :
    applicationsSubmit "   " "dev" "full_time" "applied" "2025-01-01" none none none
      = .rejected ⟨"error", "Company name and role are required"⟩ ∧
    codingSubmit " " "leetcode" "easy" "solved" "2025-01-01" none
      = .rejected ⟨"error", "Problem name is required"⟩ ∧
    learningSubmit "" "react"
      = .rejected ⟨"error", "Topic name is required"⟩ :=
  required_field_validation "   " "dev" "full_time" "applied" "2025-01-01"
    none none none " " "leetcode" "easy" "solved" "2025-01-01" none "" "react"
    (by decide) (by decide) (by decide)

/-! ### List filtering (claim C7)
`filteredApps` (Dashboard.tsx, both tracker components share the same
expression) and `filteredProblems` (CodingPractice.tsx). -/

/-- A row of the `coding_problems` table. -/
structure CodingProblem where
  id : String
  platform : String
  problem_name : String
  difficulty : String
  status : String
  date_practiced : String
  notes : Option String
  deriving DecidableEq

/-- `filteredApps`: the source's early-return predicate, literally. -/
def filteredApps (applications : List AppRecord)
    (filterStatus filterType : String) : List AppRecord :=
  applications.filter (fun app =>
    if filterStatus ≠ "all" ∧ app.status ≠ filterStatus then false
    else if filterType ≠ "all" ∧ app.job_type ≠ filterType then false
    else true)

/-- `filteredProblems`: the source's early-return predicate, literally. -/
def filteredProblems (problems : List CodingProblem)
    (filterPlatform filterDifficulty : String) : List CodingProblem :=
  problems.filter (fun problem =>
    if filterPlatform ≠ "all" ∧ problem.platform ≠ filterPlatform then false
    else if filterDifficulty ≠ "all" ∧ problem.difficulty ≠ filterDifficulty then false
    else true)

/-- The spec's naive two-predicate conjunction filter for applications. -/
def naiveAppFilter (applications : List AppRecord)
    (filterStatus filterType : String) : List AppRecord :=
  applications.filter (fun app =>
    decide ((filterStatus = "all" ∨ app.status = filterStatus) ∧
            (filterType = "all" ∨ app.job_type = filterType)))

/-- The spec's naive two-predicate conjunction filter for problems. -/
def naiveProblemFilter (problems : List CodingProblem)
    (filterPlatform filterDifficulty : String) : List CodingProblem :=
  problems.filter (fun problem =>
    decide ((filterPlatform = "all" ∨ problem.platform = filterPlatform) ∧
            (filterDifficulty = "all" ∨ problem.difficulty = filterDifficulty)))

/-- Claim C7: for every list and every pair of filter settings, the
displayed filtered list equals the naive conjunction filter — a record
is shown iff each of the two filters is `"all"` or matched — for both
the application list and the coding-problem list. -/
theorem filters_are_naive_conjunction (applications : List AppRecord)
    (problems : List CodingProblem) (filterStatus filterType : String)
    (filterPlatform filterDifficulty : String) :
    filteredApps applications filterStatus filterType
      = naiveAppFilter applications filterStatus filterType ∧
    filteredProblems problems filterPlatform filterDifficulty
      = naiveProblemFilter problems filterPlatform filterDifficulty := by
  constructor <;>
    · apply List.filter_congr
      intro x _
      rw [Bool.eq_iff_iff]
      by_cases h1 : filterStatus = "all" <;> by_cases h2 : filterType = "all" <;>
        by_cases h3 : filterPlatform = "all" <;> by_cases h4 : filterDifficulty = "all" <;>
        simp [h1, h2, h3, h4]

/-! ### Interview transcript append (claim C8)
Embedding of `sendMessage` in `src/pages/MockInterviews.tsx`. The
server-sent-event stream is given as the list of its `data:`-framed
lines; `parseDelta` is the `JSON.parse`-plus-field-access oracle that
yields `json.choices?.[0]?.delta?.content` for one line payload (`none`
for an unparsable chunk, which the code ignores). -/

/-- A transcript entry. -/
structure Message where
  role : String
  content : String
  deriving DecidableEq

/-- The per-line token extraction of the streaming loop: lines that
start with `"data: "` and are not the `[DONE]` sentinel are parsed and
contribute their delta content. -/
def streamTokens (parseDelta : String → Option String) (lines : List String) :
    List String :=
  lines.filterMap (fun line =>
    if ("data: ".toList).isPrefixOf line.toList ∧ line ≠ "data: [DONE]" then
      parseDelta (String.mk (line.toList.drop 6))
    else none)

/-- The accumulation `aiMessage += content` guarded by `if (content)`
(JS truthiness: the empty string is skipped). -/
def accumulateTokens (tokens : List String) : String :=
  tokens.foldl (fun acc c => if c = "" then acc else acc ++ c) ""

theorem stringJoin_cons (c : String) (rest : List String) :
    String.join (c :: rest) = c ++ String.join rest := by
  apply String.ext
  simp [String.join_eq]

theorem accumulateTokens_eq_join_aux (tokens : List String) (acc : String) :
    tokens.foldl (fun a c => if c = "" then a else a ++ c) acc
      = acc ++ String.join tokens := by
  induction tokens generalizing acc with
  | nil => simp [String.join, String.append_empty]
  | cons c rest ih =>
    rw [stringJoin_cons, List.foldl_cons]
    by_cases hc : c = ""
    · rw [if_pos hc, ih, hc, String.empty_append]
    · rw [if_neg hc, ih, String.append_assoc]

theorem accumulateTokens_eq_join (tokens : List String) :
    accumulateTokens tokens = String.join tokens := by
  unfold accumulateTokens
  rw [accumulateTokens_eq_join_aux]
  simp [String.join]

/-- `sendMessage` restricted to its transcript effect: guard on a blank
input, append the trimmed user message, run the streaming loop, append
the accumulated assistant message, and persist `finalMessages`. Returns
`none` when the guard returns early. -/
def sendMessage (messages : List Message) (inputMessage : String)
    (parseDelta : String → Option String) (lines : List String) :
    Option (List Message) :=
  if jsTrim inputMessage = "" then none
  else
    let userMessage : Message := ⟨"user", jsTrim inputMessage⟩
    let updatedMessages := messages ++ [userMessage]
    let aiMessage := accumulateTokens (streamTokens parseDelta lines)
    some (updatedMessages ++ [⟨"assistant", aiMessage⟩])

/-- Claim C8: for a non-blank input, `sendMessage` persists exactly the
old transcript followed by the trimmed user message and one assistant
message whose content is the concatenation of all streamed tokens; every
earlier entry is unchanged in value and position. -/
theorem sendMessage_appends_two (messages : List Message) (inputMessage : String)
    (parseDelta : String → Option String) (lines : List String)
    (h : jsTrim inputMessage ≠ "") :
    sendMessage messages inputMessage parseDelta lines
      = some (messages ++ [⟨"user", jsTrim inputMessage⟩,
          ⟨"assistant", String.join (streamTokens parseDelta lines)⟩]) ∧
    (∀ final, sendMessage messages inputMessage parseDelta lines = some final →
      final.length = messages.length + 2 ∧
      ∀ i : Nat, i < messages.length → final[i]? = messages[i]?) := by
  have e : sendMessage messages inputMessage parseDelta lines
      = some (messages ++ [⟨"user", jsTrim inputMessage⟩,
          ⟨"assistant", String.join (streamTokens parseDelta lines)⟩]) := by
    unfold sendMessage
    rw [if_neg h, accumulateTokens_eq_join]
    simp
  refine ⟨e, fun final hf => ?_⟩
  rw [e] at hf
  obtain rfl : final = _ := (Option.some.injEq ..).mp hf.symm
  constructor
  · simp
  · intro i hi
    rw [List.getElem?_append, if_pos hi]

/-- Witness for C8: one prior exchange, a padded input and a two-chunk
stream (with sentinel and junk lines ignored). -/
theorem sendMessage_appends_two_witness :
    sendMessage [⟨"assistant", "Tell me about yourself."⟩] " I am ready. "
        (fun s => some s) ["data: Hel", "data: lo", "data: [DONE]", "junk"]
      = some [⟨"assistant", "Tell me about yourself."⟩, ⟨"user", "I am ready."⟩,
          ⟨"assistant", "Hello"⟩] := by
  have h := (sendMessage_appends_two [⟨"assistant", "Tell me about yourself."⟩]
    " I am ready. " (fun s => some s) ["data: Hel", "data: lo", "data: [DONE]", "junk"]
    (by decide)).1
  rw [h]
  rfl

/-! ### Deletion (claim C9)
Embedding of the delete handlers of the application tracker and the
coding-practice page: a successful `delete().eq('id', X)` removes the
rows with id `X` server-side, and the success path refetches, so the
displayed list becomes the server list. -/

/-- Server-side effect of `supabase.from(...).delete().eq('id', id)` on
the user's application rows. -/
def deleteApplicationRows (rows : List AppRecord) (id : String) : List AppRecord :=
  rows.filter (fun r => r.id ≠ id)

/-- Server-side effect of the same delete call on coding-problem rows. -/
def deleteProblemRows (rows : List CodingProblem) (id : String) : List CodingProblem :=
  rows.filter (fun r => r.id ≠ id)

/-- Displayed list after a successful `handleDelete` of `id` on the
tracker: the handler refetches, so the display shows the post-delete
server rows. -/
def displayedAfterAppDelete (server : List AppRecord) (id : String) : List AppRecord :=
  deleteApplicationRows server id

/-- Displayed list after a successful `handleDelete` of `id` on the
coding-practice page. -/
def displayedAfterProblemDelete (server : List CodingProblem) (id : String) :
    List CodingProblem :=
  deleteProblemRows server id

/-- Claim C9: when the displayed list is in sync with the server rows, a
successful deletion of id `X` displays exactly the previous list with
the records of id `X` removed (order preserved); every record with a
different id remains, and the same holds on the coding-practice page. -/
theorem delete_removes_exactly_id (displayed server : List AppRecord)
    (pdisplayed pserver : List CodingProblem) (X : String)
    (hsync : displayed = server) (hpsync : pdisplayed = pserver) :
    displayedAfterAppDelete server X = displayed.filter (fun r => r.id ≠ X) ∧
    (∀ r ∈ displayed, r.id ≠ X → r ∈ displayedAfterAppDelete server X) ∧
    (∀ r ∈ displayedAfterAppDelete server X, r ∈ displayed ∧ r.id ≠ X) ∧
    displayedAfterProblemDelete pserver X = pdisplayed.filter (fun r => r.id ≠ X) ∧
    (∀ r ∈ pdisplayed, r.id ≠ X → r ∈ displayedAfterProblemDelete pserver X) ∧
    (∀ r ∈ displayedAfterProblemDelete pserver X, r ∈ pdisplayed ∧ r.id ≠ X) := by
  subst hsync hpsync
  refine ⟨rfl, fun r hr hne => ?_, fun r hr => ?_, rfl, fun r hr hne => ?_, fun r hr => ?_⟩ <;>
    first
      | exact List.mem_filter.mpr ⟨hr, by simpa using hne⟩
      | · have h := List.mem_filter.mp hr
          exact ⟨h.1, by simpa using h.2⟩

/-- Witness for C9: deleting id `"b"` from a three-record list removes
exactly that record. -/
theorem delete_removes_exactly_id_witness :
    displayedAfterAppDelete
        [⟨"a", "X", "r", "full_time", "applied", "d", none, none, none⟩,
         ⟨"b", "Y", "r", "full_time", "applied", "d", none, none, none⟩,
         ⟨"c", "Z", "r", "full_time", "applied", "d", none, none, none⟩] "b"
      = [⟨"a", "X", "r", "full_time", "applied", "d", none, none, none⟩,
         ⟨"c", "Z", "r", "full_time", "applied", "d", none, none, none⟩] := by
  have h := (delete_removes_exactly_id
    [⟨"a", "X", "r", "full_time", "applied", "d", none, none, none⟩,
     ⟨"b", "Y", "r", "full_time", "applied", "d", none, none, none⟩,
     ⟨"c", "Z", "r", "full_time", "applied", "d", none, none, none⟩]
    [⟨"a", "X", "r", "full_time", "applied", "d", none, none, none⟩,
     ⟨"b", "Y", "r", "full_time", "applied", "d", none, none, none⟩,
     ⟨"c", "Z", "r", "full_time", "applied", "d", none, none, none⟩]
    [] [] "b" rfl rfl).1
  rw [h]
  rfl

end Placement
